import Mathlib

/-!
Shallow embedding of `fmoe/megatron.py`, the FastMoE adaptor for
Megatron-LM: the argument namespace, the `MegatronMLP` adapter and its
weight re-initialization, the `fmoefy` model surgery, and the
`DistributedDataParallel` checkpoint-forwarding wrapper.

Python attribute namespaces become records; keys that the code probes
with `hasattr` / `in` become `Option` fields (`none` = attribute
absent).  Assertion failures and attribute errors become `Except` /
error-flag results.  In-place mutation of the model's layer list
becomes explicit state passing that also records the partially mutated
list on a failure path, so that "failed before replacing any layer"
is expressible.

The module under analysis binds only `nn` (via `import torch.nn as
nn`) and three package-relative names; `math`, `np` and `torch` are
never imported.  The helpers that evaluate those names, namely
`_random_init_weight`, `MegatronMLP.reset_parameters` and
`MegatronMLP.forward` (and hence every `MegatronMLP` construction,
whose `__init__` ends by calling `reset_parameters`) raise `NameError`
on every call, and are embedded as such: only the statements that
execute before the unbound name is evaluated are given behavior.
-/

namespace FMoE

/-- The Megatron global argument namespace, restricted to the keys this
adaptor reads or writes.  `num_experts`, `hidden_hidden_size` and
`top_k` are probed with `in` / `hasattr` in the source, so they are
`Option` fields; the remaining keys are read unconditionally. -/
structure Args where
  num_experts : Option Nat
  hidden_size : Nat
  hidden_hidden_size : Option Nat
  top_k : Option Nat
  distributed_experts : Bool
  world_size : Nat
  rank : Nat
  seq_length : Nat
  micro_batch_size : Nat
  tensor_model_parallel_size : Nat
deriving DecidableEq

/-- A token for the global numpy random state that the source intends
to thread through weight initialization.  Since the module never
imports `numpy`, no code path modelled here ever reads or advances
this state; it is kept in the signatures so the state-threading
structure of the stateful source (and which calls would consume state,
were the import present) stays visible. -/
structure NpRng where
  state : Nat
deriving DecidableEq

/-- A linear-like expert module as `_random_init_weight` sees it: a
weight tensor whose leading dimension is the expert axis (shape
`num_expert × out_features × in_features`, stored flattened) and an
optional bias. -/
structure LinearExpertModule where
  num_expert : Nat
  out_features : Nat
  in_features : Nat
  weight : List Nat
  bias : Option (List Nat)
  dtype : Nat
  device : Nat
deriving DecidableEq

/-- `_random_init_weight(self, rng)` (lines 28-45).  Line 32 computes
the fan through the bound `nn` module, but line 33 then evaluates
`math.sqrt(5)` and the module never imports `math` (nor `torch`, used
at line 38), so every invocation raises `NameError` before any weight
or bias value is drawn or written: the module is left untouched and no
tensor is produced. -/
def _random_init_weight (m : LinearExpertModule) (rng : NpRng) :
    Except String (LinearExpertModule × NpRng) :=
  .error "NameError: name math is not defined"

/-- The two expert linear modules (`experts.htoh4`, `experts.h4toh`)
of the MoE layer. -/
structure Experts where
  htoh4 : LinearExpertModule
  h4toh : LinearExpertModule
deriving DecidableEq

/-- Modelled from the spec: the `FMoETransformerMLP` base constructor
(defined in `fmoe/transformer.py`, outside this fragment) allocates
the two expert linear modules with expert axis `num_experts`, shapes
`d_hidden × d_model` and `d_model × d_hidden`, and per-expert biases. -/
def initExperts (num_experts d_model d_hidden : Nat) : Experts :=
  { htoh4 :=
      { num_expert := num_experts, out_features := d_hidden
        in_features := d_model
        weight := List.replicate (num_experts * d_hidden * d_model) 0
        bias := some (List.replicate (num_experts * d_hidden) 0)
        dtype := 0, device := 0 }
    h4toh :=
      { num_expert := num_experts, out_features := d_model
        in_features := d_hidden
        weight := List.replicate (num_experts * d_model * d_hidden) 0
        bias := some (List.replicate (num_experts * d_model) 0)
        dtype := 0, device := 0 } }

/-- The `MegatronMLP` adapter object as it stands when `__init__`
reaches its final statement: the configuration passed to the MoE base
constructor, the fields `__init__` stores (`hidden_size`, `rank`), and
the expert modules the base constructor allocates.  The subsequent
`reset_parameters` call always raises, so `init` never returns a value
of this type; it also serves as the installed-adapter payload of
`MLPSlot`. -/
structure MegatronMLP where
  num_experts : Nat
  top_k : Nat
  d_model : Nat
  d_hidden : Nat
  world_size : Nat
  expert_dp_comm : String
  hidden_size : Nat
  rank : Nat
  experts : Experts
deriving DecidableEq

/-- `MegatronMLP.reset_parameters` (lines 70-77).  Its first statement
(line 76) evaluates `np.random.default_rng(np.random.randint(2048) +
self.rank)`, and the module never imports `numpy`, so every call
raises `NameError` at once: no per-rank seed is derived, neither
expert module is re-initialized, and the global numpy state is never
consulted. -/
def MegatronMLP.reset_parameters (m : MegatronMLP) (g : NpRng) :
    Except String (MegatronMLP × NpRng) :=
  .error "NameError: name np is not defined"

/-- The argument tuple `MegatronMLP.__init__` passes to the
`FMoETransformerMLP` base constructor (lines 61-65). -/
structure SuperInitArgs where
  num_expert : Nat
  top_k : Nat
  d_model : Nat
  d_hidden : Nat
  world_size : Nat
  expert_dp_comm : String
deriving DecidableEq

/-- The prefix of `MegatronMLP.__init__` that executes before the call
to `reset_parameters` (lines 53-65): the divisibility assertion is
evaluated first (a zero tensor-parallel width raises
`ZeroDivisionError` even earlier, while evaluating the modulo), the
expert-parallel world size is resolved from `distributed_experts`,
and `num_experts`, `top_k`, `hidden_size`, `hidden_hidden_size` are
read off the namespace (an absent optional key raises
`AttributeError`) to form the arguments handed to the MoE base
constructor. -/
def MegatronMLP.superInitArgs (args : Args) : Except String SuperInitArgs :=
  if args.tensor_model_parallel_size = 0 then
    .error "ZeroDivisionError: integer modulo by zero"
  else if args.seq_length * args.micro_batch_size %
      args.tensor_model_parallel_size ≠ 0 then
    .error "Batch size x sequence length should be multiple of mp size"
  else
    match args.num_experts, args.top_k, args.hidden_hidden_size with
    | some ne, some tk, some hh =>
      .ok { num_expert := ne
            top_k := tk
            d_model := args.hidden_size
            d_hidden := hh
            world_size :=
              if args.distributed_experts then args.world_size else 1
            expert_dp_comm :=
              if args.distributed_experts then "none" else "dp" }
    | _, _, _ => .error "AttributeError"

/-- `MegatronMLP.__init__(args, group)` as a whole.  After the prefix
modelled by `superInitArgs` succeeds, the base constructor (external,
it allocates the expert modules) runs and `hidden_size` and `rank` are
stored (lines 61-67); the final statement (line 68) then calls
`reset_parameters`, which always raises `NameError` because `numpy` is
never imported — so no construction ever completes successfully. -/
def MegatronMLP.init (args : Args) (g : NpRng) :
    Except String (MegatronMLP × NpRng) :=
  match MegatronMLP.superInitArgs args with
  | .error e => .error e
  | .ok s =>
    let m0 : MegatronMLP :=
      { num_experts := s.num_expert
        top_k := s.top_k
        d_model := s.d_model
        d_hidden := s.d_hidden
        world_size := s.world_size
        expert_dp_comm := s.expert_dp_comm
        hidden_size := args.hidden_size
        rank := args.rank
        experts := initExperts s.num_expert args.hidden_size s.d_hidden }
    m0.reset_parameters g

/-- The expert-parallel world size `MegatronMLP.__init__` hands to the
MoE base constructor — evaluated and passed at lines 57-65, before the
`NameError` that later aborts `__init__` — or `none` when the prefix
before that call already fails. -/
def initWorldSize (args : Args) : Option Nat :=
  ((MegatronMLP.superInitArgs args).toOption).map (fun s => s.world_size)

/-- A minimal tensor: flattened data with a dtype and a device tag. -/
structure Tensor where
  data : List Int
  dtype : Nat
  device : Nat
deriving DecidableEq

/-- `MegatronMLP.forward(inp)` (lines 80-82).  Python builds the
returned pair left to right: `super().forward(inp)` (the MoE base
layer, external to this fragment, stands behind `super_forward`) is
evaluated first, but the second element then evaluates `torch.zeros`
and the module never imports `torch`, so `forward` raises `NameError`
on every call and never returns the `(output, bias)` pair. -/
def MegatronMLP.forward (m : MegatronMLP) (super_forward : Tensor → Tensor)
    (inp : Tensor) : Except String (Tensor × Tensor) :=
  .error "NameError: name torch is not defined"

/-- The mlp slot of a transformer layer: either the host's original
MLP module or the MoE adapter installed by `fmoefy`. -/
inductive MLPSlot where
  | host : Nat → MLPSlot
  | moe : MegatronMLP → MLPSlot
deriving DecidableEq

/-- A transformer layer: its `mlp` attribute plus all its other
attributes, which `fmoefy` must leave untouched. -/
structure MLPLayer (α : Type) where
  mlp : MLPSlot
  layer_rest : α
deriving DecidableEq

/-- `model.language_model.transformer`: the layer list plus the
transformer's other attributes. -/
structure Transformer (α β : Type) where
  layers : List (MLPLayer α)
  transformer_rest : β
deriving DecidableEq

/-- `model.language_model`. -/
structure LanguageModel (α β γ : Type) where
  transformer : Transformer α β
  language_model_rest : γ
deriving DecidableEq

/-- A Megatron model as `fmoefy` sees it. -/
structure MegatronModel (α β γ δ : Type) where
  language_model : LanguageModel α β γ
  model_rest : δ
deriving DecidableEq

/-- The in-place loop `for l in model...layers: l.mlp = MegatronMLP(...)`.
Layers are mutated left to right, threading the global numpy state; on
a constructor failure the layers not yet reached keep their original
contents, so the returned list records exactly how far the mutation
got. -/
def mutateLayers {α : Type} (args : Args) (g : NpRng) :
    List (MLPLayer α) → List (MLPLayer α) × NpRng × Option String
  | [] => ([], g, none)
  | l :: ls =>
    match MegatronMLP.init args g with
    | .error e => (l :: ls, g, some e)
    | .ok p =>
      let r := mutateLayers args p.2 ls
      ({ l with mlp := .moe p.1 } :: r.1, r.2.1, r.2.2)

/-- Step `args.num_experts = num_experts` when the override is given. -/
def setNumExperts (args : Args) : Option Nat → Args
  | some n => { args with num_experts := some n }
  | none => args

/-- The default-resolution steps of `fmoefy` after the `num_experts`
assertion: resolve `hidden_hidden_size` (override, else existing
value, else `4 * hidden_size`), then `top_k` (override, else existing
value, else `2`), then overwrite `distributed_experts` unless the
override is `None`. -/
def resolveRest (args : Args)
    (hidden_hidden_size : Option Nat) (top_k : Option Nat)
    (distributed_experts : Option Bool) : Args :=
  let a2 :=
    match hidden_hidden_size with
    | some h => { args with hidden_hidden_size := some h }
    | none =>
      if args.hidden_hidden_size = none then
        { args with hidden_hidden_size := some (args.hidden_size * 4) }
      else args
  let a3 :=
    match top_k with
    | some t => { a2 with top_k := some t }
    | none => if a2.top_k = none then { a2 with top_k := some 2 } else a2
  match distributed_experts with
  | some d => { a3 with distributed_experts := d }
  | none => a3

/-- The outcome of `fmoefy`: the (mutated) model, the (mutated) global
argument namespace, the advanced global numpy state, and the raised
exception message, if any. -/
structure SurgeryOut (α β γ δ : Type) where
  model : MegatronModel α β γ δ
  args : Args
  np : NpRng
  err : Option String
deriving DecidableEq

/-- `fmoefy(model, num_experts, distributed_experts,
hidden_hidden_size, top_k)`: write the `num_experts` override, assert
the key is present, resolve the remaining defaults, replace every
layer's `mlp` with a freshly constructed `MegatronMLP`, and return the
same model.  The Python default for `distributed_experts` is `True`
(`some true` here); passing `None` keeps the namespace's setting. -/
def fmoefy {α β γ δ : Type} (model : MegatronModel α β γ δ) (args : Args)
    (g : NpRng) (num_experts : Option Nat) (distributed_experts : Option Bool)
    (hidden_hidden_size : Option Nat) (top_k : Option Nat) :
    SurgeryOut α β γ δ :=
  let a1 := setNumExperts args num_experts
  if a1.num_experts = none then
    { model := model, args := a1, np := g
      err := some "num_experts should be specified in arguments or fmoefy function" }
  else
    let a4 := resolveRest a1 hidden_hidden_size top_k distributed_experts
    let r := mutateLayers a4 g model.language_model.transformer.layers
    { model :=
        { model with
          language_model :=
            { model.language_model with
              transformer :=
                { model.language_model.transformer with layers := r.1 } } }
      args := a4, np := r.2.1, err := r.2.2 }

/-- The wrapped inner module of the distributed wrapper, exposing the
three checkpoint methods the wrapper forwards (argument and result
types abstract, standing for arbitrary `*args, **kwargs`). -/
structure InnerModule (σ τ ρ : Type) where
  state_dict : σ → ρ
  state_dict_for_save_checkpoint : σ → ρ
  load_state_dict : τ → ρ

/-- Modelled from the spec: the `DistributedGroupedDataParallel` base
class (defined in `fmoe/distributed.py`, outside this fragment) stores
the wrapped module as `self.module` together with the model-parallel
and data-parallel communicator groups obtained from `megatron.mpu`. -/
structure DistributedDataParallel (σ τ ρ : Type) where
  module : InnerModule σ τ ρ
  mp_group : Nat
  dp_group : Nat

/-- `DistributedDataParallel.state_dict`: forwards to the inner module. -/
def DistributedDataParallel.state_dict {σ τ ρ : Type}
    (w : DistributedDataParallel σ τ ρ) (a : σ) : ρ :=
  w.module.state_dict a

/-- `DistributedDataParallel.state_dict_for_save_checkpoint`: forwards
to the inner module. -/
def DistributedDataParallel.state_dict_for_save_checkpoint {σ τ ρ : Type}
    (w : DistributedDataParallel σ τ ρ) (a : σ) : ρ :=
  w.module.state_dict_for_save_checkpoint a

/-- `DistributedDataParallel.load_state_dict`: forwards to the inner
module. -/
def DistributedDataParallel.load_state_dict {σ τ ρ : Type}
    (w : DistributedDataParallel σ τ ρ) (b : τ) : ρ :=
  w.module.load_state_dict b


/-- A small argument namespace on which construction succeeds. -/
def sampleArgs : Args :=
  { num_experts := some 1, hidden_size := 2, hidden_hidden_size := some 2
    top_k := some 1, distributed_experts := false, world_size := 4, rank := 0
    seq_length := 4, micro_batch_size := 1, tensor_model_parallel_size := 2 }

/-- A host transformer layer with its original mlp. -/
def sampleLayer : MLPLayer Nat := { mlp := .host 0, layer_rest := 7 }

/-- A one-layer host model. -/
def sampleModel : MegatronModel Nat Nat Nat Nat :=
  { language_model :=
      { transformer := { layers := [sampleLayer], transformer_rest := 1 }
        language_model_rest := 2 }
    model_rest := 3 }

/-- `setNumExperts` only writes the `num_experts` key. -/
theorem setNumExperts_frame (a : Args) (ne : Option Nat) :
    (setNumExperts a ne).hidden_size = a.hidden_size ∧
    (setNumExperts a ne).hidden_hidden_size = a.hidden_hidden_size ∧
    (setNumExperts a ne).top_k = a.top_k ∧
    (setNumExperts a ne).distributed_experts = a.distributed_experts ∧
    (setNumExperts a ne).world_size = a.world_size ∧
    (setNumExperts a ne).rank = a.rank ∧
    (setNumExperts a ne).seq_length = a.seq_length ∧
    (setNumExperts a ne).micro_batch_size = a.micro_batch_size ∧
    (setNumExperts a ne).tensor_model_parallel_size = a.tensor_model_parallel_size := by
  cases ne <;> exact ⟨rfl, rfl, rfl, rfl, rfl, rfl, rfl, rfl, rfl⟩

/-- `resolveRest` only writes the `hidden_hidden_size`, `top_k` and
`distributed_experts` keys. -/
theorem resolveRest_frame (a : Args) (hh tk : Option Nat) (de : Option Bool) :
    (resolveRest a hh tk de).num_experts = a.num_experts ∧
    (resolveRest a hh tk de).hidden_size = a.hidden_size ∧
    (resolveRest a hh tk de).world_size = a.world_size ∧
    (resolveRest a hh tk de).rank = a.rank ∧
    (resolveRest a hh tk de).seq_length = a.seq_length ∧
    (resolveRest a hh tk de).micro_batch_size = a.micro_batch_size ∧
    (resolveRest a hh tk de).tensor_model_parallel_size =
      a.tensor_model_parallel_size := by
  cases hh <;> cases tk <;> cases de <;>
    simp only [resolveRest] <;> (try split_ifs) <;> simp


/-- An explicit `hidden_hidden_size` override is written through. -/
theorem resolveRest_hh_some (a : Args) (tk : Option Nat) (de : Option Bool) (h : Nat) :
    (resolveRest a (some h) tk de).hidden_hidden_size = some h := by
  cases tk <;> cases de <;>
    simp only [resolveRest] <;> (try split_ifs) <;> simp

/-- Without an override, an absent `hidden_hidden_size` defaults to
`4 * hidden_size`. -/
theorem resolveRest_hh_default (a : Args) (tk : Option Nat) (de : Option Bool)
    (h : a.hidden_hidden_size = none) :
    (resolveRest a none tk de).hidden_hidden_size = some (a.hidden_size * 4) := by
  cases tk <;> cases de <;>
    simp only [resolveRest] <;> (try split_ifs) <;> simp_all

/-- An explicit `top_k` override is written through. -/
theorem resolveRest_tk_some (a : Args) (hh : Option Nat) (de : Option Bool) (t : Nat) :
    (resolveRest a hh (some t) de).top_k = some t := by
  cases hh <;> cases de <;>
    simp only [resolveRest] <;> (try split_ifs) <;> simp

/-- Without an override, an absent `top_k` defaults to `2`. -/
theorem resolveRest_tk_default (a : Args) (hh : Option Nat) (de : Option Bool)
    (h : a.top_k = none) :
    (resolveRest a hh none de).top_k = some 2 := by
  cases hh <;> cases de <;>
    simp only [resolveRest] <;> (try split_ifs) <;> simp_all

/-- A non-`None` `distributed_experts` override is written through. -/
theorem resolveRest_de_some (a : Args) (hh tk : Option Nat) (d : Bool) :
    (resolveRest a hh tk (some d)).distributed_experts = d := rfl

/-- A `None` `distributed_experts` override keeps the namespace value. -/
theorem resolveRest_de_none (a : Args) (hh tk : Option Nat) :
    (resolveRest a hh tk none).distributed_experts = a.distributed_experts := by
  cases hh <;> cases tk <;>
    simp only [resolveRest] <;> (try split_ifs) <;> simp


/-- C6: for every argument, calling `state_dict`,
`state_dict_for_save_checkpoint`, or `load_state_dict` on the
`DistributedDataParallel` wrapper returns exactly the result of the
same-named method applied to the same argument on the wrapped inner
module. -/
theorem ddp_checkpoint_forwarding {σ τ ρ : Type}
    (w : DistributedDataParallel σ τ ρ) (a : σ) (b : τ) :
    w.state_dict a = w.module.state_dict a ∧
    w.state_dict_for_save_checkpoint a =
      w.module.state_dict_for_save_checkpoint a ∧
    w.load_state_dict b = w.module.load_state_dict b :=
  ⟨rfl, rfl, rfl⟩

/-- C7 (code bug): on every input, `MegatronMLP.forward` raises
`NameError` while evaluating `torch.zeros` (line 81, `torch` never
imported) and never returns the claimed `(output, zero-bias)` pair. -/
theorem megatron_mlp_forward_name_error
    (m : MegatronMLP) (super_forward : Tensor → Tensor) (inp : Tensor) :
    m.forward super_forward inp =
      .error "NameError: name torch is not defined" := rfl

/-- C8 (code bug): `_random_init_weight` raises `NameError` at
`math.sqrt(5)` (line 33, `math` never imported) on every invocation,
so it never produces a weight or bias tensor: there are no
re-initialized tensors whose determinism could be compared. -/
theorem random_init_weight_name_error
    (m : LinearExpertModule) (rng : NpRng) :
    _random_init_weight m rng =
      .error "NameError: name math is not defined" := rfl


/-- A namespace missing the `num_experts` key. -/
def sampleArgsNoExperts : Args :=
  { sampleArgs with num_experts := none }

/-- C4: the expert-parallel world size that `MegatronMLP.__init__`
evaluates and hands to the MoE base constructor (lines 57-65 — this
happens before the `NameError` that later aborts the constructor) is
`1` whenever `distributed_experts` is false, regardless of
`world_size`, and equals `args.world_size` whenever
`distributed_experts` is true. -/
theorem megatron_mlp_world_size (args : Args)
    (ne tk hh : Nat)
    (hne : args.num_experts = some ne) (htk : args.top_k = some tk)
    (hhh : args.hidden_hidden_size = some hh)
    (htmp : args.tensor_model_parallel_size ≠ 0)
    (hdiv : args.seq_length * args.micro_batch_size %
      args.tensor_model_parallel_size = 0) :
    (args.distributed_experts = false → initWorldSize args = some 1) ∧
    (args.distributed_experts = true →
      initWorldSize args = some args.world_size) := by
  constructor <;> intro hde <;>
    simp [initWorldSize, MegatronMLP.superInitArgs, htmp, hdiv, hne, htk,
      hhh, hde, Except.toOption]

/-- Witness for C4: on a concrete namespace with
`distributed_experts = false` and `world_size = 4`, the width handed
to the base constructor is `1`. -/
theorem megatron_mlp_world_size_witness :
    sampleArgs.num_experts = some 1 ∧
    sampleArgs.top_k = some 1 ∧
    sampleArgs.hidden_hidden_size = some 2 ∧
    sampleArgs.tensor_model_parallel_size ≠ 0 ∧
    sampleArgs.seq_length * sampleArgs.micro_batch_size %
      sampleArgs.tensor_model_parallel_size = 0 ∧
    sampleArgs.distributed_experts = false ∧
    initWorldSize sampleArgs = some 1 :=
  ⟨rfl, rfl, rfl, by decide, by decide, rfl,
    (megatron_mlp_world_size sampleArgs 1 1 2 rfl rfl rfl
      (by decide) (by decide)).1 rfl⟩

/-- C5: calling `fmoefy` with `num_experts = None` on a namespace
that lacks the `num_experts` key fails on the assertion immediately:
the returned model is the unmutated input model, the namespace carries
none of the resolved defaults (it is unchanged), and no layer's `mlp`
was replaced. -/
theorem fmoefy_missing_num_experts {α β γ δ : Type}
    (model : MegatronModel α β γ δ) (args : Args) (g : NpRng)
    (de : Option Bool) (hh tk : Option Nat)
    (h : args.num_experts = none) :
    fmoefy model args g none de hh tk =
      { model := model, args := args, np := g
        err := some "num_experts should be specified in arguments or fmoefy function" } := by
  simp [fmoefy, setNumExperts, h]

/-- Witness for C5 on a concrete model and namespace. -/
theorem fmoefy_missing_num_experts_witness :
    sampleArgsNoExperts.num_experts = none ∧
    fmoefy sampleModel sampleArgsNoExperts ⟨0⟩ none (some true) none none =
      { model := sampleModel, args := sampleArgsNoExperts, np := ⟨0⟩
        err := some "num_experts should be specified in arguments or fmoefy function" } :=
  ⟨rfl, fmoefy_missing_num_experts sampleModel sampleArgsNoExperts ⟨0⟩
    (some true) none none rfl⟩


/-- A namespace lacking both `hidden_hidden_size` and `top_k`. -/
def sampleArgsNoDefaults : Args :=
  { sampleArgs with hidden_hidden_size := none, top_k := none }

/-- The `num_experts` assertion of `fmoefy` passes exactly when the
override or the namespace supplies the key. -/
theorem setNumExperts_num_experts (a : Args) (ne : Option Nat)
    (h : ne ≠ none ∨ a.num_experts ≠ none) :
    (setNumExperts a ne).num_experts ≠ none := by
  cases ne with
  | some n => simp [setNumExperts]
  | none => simpa [setNumExperts] using h

/-- C10: when `fmoefy` reaches the `distributed_experts` step (the
`num_experts` assertion passes), passing `distributed_experts = None`
leaves the namespace's `distributed_experts` unchanged, while any
non-`None` value (including the Python default `True`) overwrites it
regardless of the namespace's previous setting. -/
theorem fmoefy_distributed_experts_write {α β γ δ : Type}
    (model : MegatronModel α β γ δ) (args : Args) (g : NpRng)
    (ne hh tk : Option Nat) (d : Bool)
    (h : ne ≠ none ∨ args.num_experts ≠ none) :
    (fmoefy model args g ne none hh tk).args.distributed_experts =
      args.distributed_experts ∧
    (fmoefy model args g ne (some d) hh tk).args.distributed_experts = d := by
  have h1 := setNumExperts_num_experts args ne h
  constructor
  · rw [fmoefy, if_neg h1]
    exact (resolveRest_de_none _ hh tk).trans (setNumExperts_frame args ne).2.2.2.1
  · rw [fmoefy, if_neg h1]
    exact resolveRest_de_some _ hh tk d

/-- Witness for C10: on a namespace with `distributed_experts = false`,
a `None` override keeps `false` and an explicit `true` override
installs `true`. -/
theorem fmoefy_distributed_experts_write_witness :
    ((some 1 : Option Nat) ≠ none ∨ sampleArgs.num_experts ≠ none) ∧
    ((fmoefy sampleModel sampleArgs ⟨0⟩ (some 1) none none none).args.distributed_experts =
        sampleArgs.distributed_experts ∧
      (fmoefy sampleModel sampleArgs ⟨0⟩ (some 1) (some true) none none).args.distributed_experts =
        true) :=
  ⟨Or.inl (by simp), fmoefy_distributed_experts_write sampleModel sampleArgs ⟨0⟩
    (some 1) none none true (Or.inl (by simp))⟩

/-- C3: once `fmoefy` passes the `num_experts` assertion, an unset
`hidden_hidden_size` resolves to `4 * hidden_size` and an unset
`top_k` resolves to `2`, while explicit overrides are written to the
namespace, taking precedence over any existing value. -/
theorem fmoefy_default_resolution {α β γ δ : Type}
    (model : MegatronModel α β γ δ) (args : Args) (g : NpRng)
    (ne hh tk : Option Nat) (de : Option Bool)
    (h : ne ≠ none ∨ args.num_experts ≠ none) :
    (hh = none → args.hidden_hidden_size = none →
      (fmoefy model args g ne de hh tk).args.hidden_hidden_size =
        some (args.hidden_size * 4)) ∧
    (tk = none → args.top_k = none →
      (fmoefy model args g ne de hh tk).args.top_k = some 2) ∧
    (hh ≠ none → (fmoefy model args g ne de hh tk).args.hidden_hidden_size = hh) ∧
    (tk ≠ none → (fmoefy model args g ne de hh tk).args.top_k = tk) := by
  have h1 := setNumExperts_num_experts args ne h
  have hf := setNumExperts_frame args ne
  refine ⟨?_, ?_, ?_, ?_⟩
  · intro hhn han
    subst hhn
    rw [fmoefy, if_neg h1]
    rw [resolveRest_hh_default _ tk de (hf.2.1.trans han)]
    rw [hf.1]
  · intro htn hat
    subst htn
    rw [fmoefy, if_neg h1]
    exact resolveRest_tk_default _ hh de (hf.2.2.1.trans hat)
  · intro hhs
    obtain ⟨v, rfl⟩ := Option.ne_none_iff_exists'.mp hhs
    rw [fmoefy, if_neg h1]
    exact resolveRest_hh_some _ tk de v
  · intro hts
    obtain ⟨v, rfl⟩ := Option.ne_none_iff_exists'.mp hts
    rw [fmoefy, if_neg h1]
    exact resolveRest_tk_some _ hh de v

/-- Witness for C3: on a namespace lacking both keys, the resolved
`hidden_hidden_size` is `4 * 2 = 8` and the resolved `top_k` is `2`. -/
theorem fmoefy_default_resolution_witness :
    ((some 1 : Option Nat) ≠ none ∨ sampleArgsNoDefaults.num_experts ≠ none) ∧
    (fmoefy sampleModel sampleArgsNoDefaults ⟨0⟩ (some 1) (some true) none none).args.hidden_hidden_size =
      some (sampleArgsNoDefaults.hidden_size * 4) ∧
    (fmoefy sampleModel sampleArgsNoDefaults ⟨0⟩ (some 1) (some true) none none).args.top_k =
      some 2 :=
  ⟨Or.inl (by simp),
    (fmoefy_default_resolution sampleModel sampleArgsNoDefaults ⟨0⟩
      (some 1) none none (some true) (Or.inl (by simp))).1 rfl rfl,
    (fmoefy_default_resolution sampleModel sampleArgsNoDefaults ⟨0⟩
      (some 1) none none (some true) (Or.inl (by simp))).2.1 rfl rfl⟩


/-- A namespace violating the divisibility precondition
(`2 * 1 % 3 = 2`). -/
def sampleArgsBadDiv : Args :=
  { sampleArgs with
    seq_length := 2, micro_batch_size := 1
    tensor_model_parallel_size := 3 }

/-- On a constructor failure, the in-place loop stops before mutating
any layer. -/
theorem mutateLayers_error {α : Type} (args : Args) (g : NpRng)
    (l : MLPLayer α) (ls : List (MLPLayer α)) (e : String)
    (h : MegatronMLP.init args g = .error e) :
    mutateLayers args g (l :: ls) = (l :: ls, g, some e) := by
  simp [mutateLayers, h]

/-- On a namespace violating the divisibility precondition, the
constructor fails with the batch-size assertion. -/
theorem megatron_mlp_init_divisibility_error (args : Args) (g : NpRng)
    (htmp : args.tensor_model_parallel_size ≠ 0)
    (hdiv : args.seq_length * args.micro_batch_size %
      args.tensor_model_parallel_size ≠ 0) :
    MegatronMLP.init args g =
      .error "Batch size x sequence length should be multiple of mp size" := by
  simp [MegatronMLP.init, MegatronMLP.superInitArgs, htmp, hdiv]

/-- C2: when `(seq_length * micro_batch_size) % tensor_model_parallel_size`
is nonzero (the width itself nonzero, as a zero width raises even
earlier), constructing a `MegatronMLP` fails with the batch-size
assertion, and `fmoefy` on any non-empty layer list fails before
replacing any layer: the whole model, its layer list included, is
returned unchanged. -/
theorem fmoefy_divisibility_guard {α β γ δ : Type}
    (model : MegatronModel α β γ δ) (args : Args) (g : NpRng)
    (ne tk hh : Option Nat) (de : Option Bool)
    (htmp : args.tensor_model_parallel_size ≠ 0)
    (hdiv : args.seq_length * args.micro_batch_size %
      args.tensor_model_parallel_size ≠ 0)
    (hlay : model.language_model.transformer.layers ≠ []) :
    MegatronMLP.init args g =
      .error "Batch size x sequence length should be multiple of mp size" ∧
    (fmoefy model args g ne de hh tk).err.isSome = true ∧
    (fmoefy model args g ne de hh tk).model = model := by
  refine ⟨megatron_mlp_init_divisibility_error args g htmp hdiv, ?_⟩
  by_cases h1 : (setNumExperts args ne).num_experts = none
  · simp only [fmoefy]
    rw [if_pos h1]
    exact ⟨rfl, rfl⟩
  · rw [fmoefy, if_neg h1]
    obtain ⟨l, ls, hls⟩ := List.exists_cons_of_ne_nil hlay
    have hf := resolveRest_frame (setNumExperts args ne) hh tk de
    have hs := setNumExperts_frame args ne
    have hinit : MegatronMLP.init (resolveRest (setNumExperts args ne) hh tk de) g =
        .error "Batch size x sequence length should be multiple of mp size" := by
      apply megatron_mlp_init_divisibility_error
      · rw [hf.2.2.2.2.2.2, hs.2.2.2.2.2.2.2.2]
        exact htmp
      · rw [hf.2.2.2.2.1, hf.2.2.2.2.2.1, hf.2.2.2.2.2.2,
          hs.2.2.2.2.2.2.1, hs.2.2.2.2.2.2.2.1, hs.2.2.2.2.2.2.2.2]
        exact hdiv
    simp only [fmoefy]
    rw [hls, mutateLayers_error _ g l ls _ hinit, ← hls]
    exact ⟨rfl, rfl⟩

/-- Witness for C2: a namespace with `seq_length * micro_batch_size = 2`
and tensor-parallel width `3` fails the assertion and `fmoefy` leaves
the one-layer model untouched. -/
theorem fmoefy_divisibility_guard_witness :
    sampleArgsBadDiv.tensor_model_parallel_size ≠ 0 ∧
    sampleArgsBadDiv.seq_length * sampleArgsBadDiv.micro_batch_size %
      sampleArgsBadDiv.tensor_model_parallel_size ≠ 0 ∧
    sampleModel.language_model.transformer.layers ≠ [] ∧
    (MegatronMLP.init sampleArgsBadDiv ⟨0⟩ =
        .error "Batch size x sequence length should be multiple of mp size" ∧
      (fmoefy sampleModel sampleArgsBadDiv ⟨0⟩ none (some true) none none).err.isSome = true ∧
      (fmoefy sampleModel sampleArgsBadDiv ⟨0⟩ none (some true) none none).model = sampleModel) :=
  ⟨by decide, by decide, by decide,
    fmoefy_divisibility_guard sampleModel sampleArgsBadDiv ⟨0⟩
      none none none (some true) (by decide) (by decide) (by decide)⟩


/-- Unfolding of `fmoefy` on the assertion-failure path. -/
theorem fmoefy_assert_eq {α β γ δ : Type}
    (model : MegatronModel α β γ δ) (args : Args) (g : NpRng)
    (ne hh tk : Option Nat) (de : Option Bool)
    (h1 : (setNumExperts args ne).num_experts = none) :
    fmoefy model args g ne de hh tk =
      { model := model, args := setNumExperts args ne, np := g
        err := some "num_experts should be specified in arguments or fmoefy function" } := by
  simp only [fmoefy]
  rw [if_pos h1]

/-- Unfolding of `fmoefy` past the `num_experts` assertion. -/
theorem fmoefy_resolved_eq {α β γ δ : Type}
    (model : MegatronModel α β γ δ) (args : Args) (g : NpRng)
    (ne hh tk : Option Nat) (de : Option Bool)
    (h1 : ¬(setNumExperts args ne).num_experts = none) :
    fmoefy model args g ne de hh tk =
      { model :=
          { model with
            language_model :=
              { model.language_model with
                transformer :=
                  { model.language_model.transformer with
                    layers :=
                      (mutateLayers (resolveRest (setNumExperts args ne) hh tk de)
                        g model.language_model.transformer.layers).1 } } }
        args := resolveRest (setNumExperts args ne) hh tk de
        np := (mutateLayers (resolveRest (setNumExperts args ne) hh tk de)
          g model.language_model.transformer.layers).2.1
        err := (mutateLayers (resolveRest (setNumExperts args ne) hh tk de)
          g model.language_model.transformer.layers).2.2 } := by
  simp only [fmoefy]
  rw [if_neg h1]

/-- Every `MegatronMLP` construction fails: either the `__init__`
prefix raises, or the final `reset_parameters` call raises `NameError`
because `numpy` is never imported. -/
theorem init_always_error (args : Args) (g : NpRng) :
    ∃ e, MegatronMLP.init args g = .error e := by
  rcases h : MegatronMLP.superInitArgs args with e | s
  · exact ⟨e, by simp [MegatronMLP.init, h]⟩
  · exact ⟨"NameError: name np is not defined",
      by simp [MegatronMLP.init, h, MegatronMLP.reset_parameters]⟩

/-- Since no construction succeeds, the in-place loop never reaches an
assignment: the layer list comes back exactly as it was. -/
theorem mutateLayers_unchanged {α : Type} (args : Args) (g : NpRng)
    (ls : List (MLPLayer α)) :
    (mutateLayers args g ls).1 = ls := by
  cases ls with
  | nil => rfl
  | cons l ls =>
    obtain ⟨e, he⟩ := init_always_error args g
    rw [mutateLayers_error args g l ls e he]

/-- C1 (code bug): because `numpy` is never imported, every
`MegatronMLP` construction raises `NameError`, so `fmoefy` never
replaces any layer's `mlp`: on every input the returned model is
exactly the input model, and on the concrete one-layer model with a
valid namespace the raised error is the `NameError` from
`reset_parameters` — not the claimed replacement of all `N` layers. -/
theorem fmoefy_replaces_no_layer {α β γ δ : Type}
    (model : MegatronModel α β γ δ) (args : Args) (g : NpRng)
    (ne hh tk : Option Nat) (de : Option Bool) :
    (fmoefy model args g ne de hh tk).model = model ∧
    (fmoefy sampleModel sampleArgs ⟨0⟩ none (some true) none none).err =
      some "NameError: name np is not defined" := by
  constructor
  · by_cases h1 : (setNumExperts args ne).num_experts = none
    · rw [fmoefy_assert_eq model args g ne hh tk de h1]
    · rw [fmoefy_resolved_eq model args g ne hh tk de h1]
      have h2 := mutateLayers_unchanged
        (resolveRest (setNumExperts args ne) hh tk de) g
        model.language_model.transformer.layers
      rw [h2]
  · decide


/-- C9 (code bug): `reset_parameters` raises `NameError` at its first
statement (line 76, `numpy` never imported) for every adapter, every
rank and every global state, so no per-rank seed is ever derived and
no expert weight is ever re-initialized — two ranks' expert weights
cannot diverge because neither rank's weights are ever written. -/
theorem reset_parameters_name_error (m : MegatronMLP) (g : NpRng) :
    MegatronMLP.reset_parameters m g =
      .error "NameError: name np is not defined" := rfl

end FMoE
